import Mathlib

/-!
Verification development for the ceramic-playground repository: a shallow
embedding of the script in `src/index.ts` / `src/unnamed/part_000` and of the
minimal identity-authenticated document store that the script exercises
(resolve / authenticate / create / load / update / schema validation).

The script's own pure helper `typeDocument` is embedded directly from the
source.  The document store, DID resolution and seed authentication are
provided by external Ceramic/DID libraries whose code is not part of this
repository, so those operations are modelled from the specification
(sections 3, 4, 6 and 7 of spec.md); each such definition carries a
doc comment starting with `Modelled from the spec:`.
-/

namespace Ceramic

/-- A JavaScript runtime value, as far as the script manipulates them:
`undefined`, `null`, booleans, numbers, strings, plain objects (ordered
own enumerable string-keyed properties) and functions. -/
inductive JSValue where
  | undefined : JSValue
  | null : JSValue
  | bool : Bool → JSValue
  | num : Int → JSValue
  | str : String → JSValue
  | obj : List (String × JSValue) → JSValue
  | func : String → JSValue

/-- JavaScript `typeof` operator on the modelled values.  Note the
well-known quirk `typeof null === "object"`. -/
def jsTypeof : JSValue → String
  | .undefined => "undefined"
  | .null => "object"
  | .bool _ => "boolean"
  | .num _ => "number"
  | .str _ => "string"
  | .obj _ => "object"
  | .func _ => "function"

/-- Own enumerable properties contributed by a spread `{...v}`: an object
contributes its properties (a shallow copy); `null` and `undefined`
contribute none; the script only ever spreads values whose `typeof` is
`"object"`. -/
def spreadProps : JSValue → List (String × JSValue)
  | .obj fields => fields
  | _ => []

/-- Embedded from `typeDocument` in src/src/index.ts lines 38-47 (same
function at src/unnamed/part_000 lines 70-79): if `typeof doc === "object"`
return `{...doc}`, otherwise return `{}`. -/
def typeDocument (doc : JSValue) : JSValue :=
  if jsTypeof doc = "object" then .obj (spreadProps doc) else .obj []

/-- Error kinds of the store contract (spec section 7). -/
inductive StoreError where
  | invalidInput : StoreError
  | unauthenticated : StoreError
  | ownershipViolation : StoreError
  | schemaViolation : StoreError
  | notFound : StoreError
  | transportFailure : StoreError
deriving DecidableEq, Repr

/-- An identifier (a DID handle or similar) modelled as its byte sequence. -/
abbrev Identifier := List Nat

/-- The bytes of the string "did:key:z", the prefix of every well-formed
did:key identifier used by the script. -/
def didPrefix : Identifier := [100, 105, 100, 58, 107, 101, 121, 58, 122]

/-- Modelled from the spec: an Identity is a handle (derived, stable
identifier) together with the capability to sign; only the handle is
observable through the store contract, so the model keeps the handle. -/
structure Identity where
  handle : Identifier
deriving DecidableEq, Repr

/-- Modelled from the spec: the stable handle an identity derives from a
seed.  Self-certifying: the public material (here, the seed-derived key
bytes) is recoverable from the handle itself.  Deterministic in the seed. -/
def didKeyOfSeed (seed : List Nat) : Identifier :=
  didPrefix ++ (107 :: seed)

/-- Modelled from the spec: `authenticate(seed) -> Identity | fails(InvalidInput)`.
Seed input is exactly 32 bytes; any other length is a format error
(spec section 6).  Embeds `authenticateDID` of the script, whose
behaviour is delegated to Ed25519Provider/DID. -/
def authenticateDID (seed : List Nat) : Except StoreError Identity :=
  if seed.length = 32 then .ok ⟨didKeyOfSeed seed⟩ else .error .invalidInput

/-- A well-formed did:key identifier: starts with "did:key:z" and carries a
nonempty multibase payload after that prefix. -/
def wellFormedDid (s : Identifier) : Bool :=
  decide (s.take 9 = didPrefix) && decide (9 < s.length)

/-- Modelled from the spec: the public descriptor a resolver returns —
the identifier itself plus the verification material derivable from it. -/
structure PublicDescriptor where
  id : Identifier
  verificationMaterial : Identifier
deriving DecidableEq, Repr

/-- Modelled from the spec: `resolve(handleOrPublicKey) -> PublicDescriptor`
is read-only and succeeds for any syntactically valid identifier regardless
of registration (self-certifying identifiers carry their own public key);
a malformed identifier fails with InvalidInput.  The `registered` argument
stands for whatever set of identities ever authenticated a session: the
result never consults it.  Embeds `resolveDID` of the script. -/
def resolveDID (registered : List Identity) (didKey : Identifier) :
    Except StoreError PublicDescriptor :=
  if wellFormedDid didKey then .ok ⟨didKey, didKey.drop 9⟩
  else .error .invalidInput

/-- Field type in a structural schema (spec section 4.4: per-field type). -/
inductive FieldType where
  | stringType : FieldType
  | numberType : FieldType
  | booleanType : FieldType
  | objectType : FieldType
deriving DecidableEq, Repr

/-- Per-field rule: a type and, for strings, an optional length bound
(spec section 4.4: string length bounds). -/
structure FieldSpec where
  ftype : FieldType
  maxLength : Option Nat
deriving DecidableEq, Repr

/-- Modelled from the spec: a schema is a structural shape grammar with
required fields, per-field type and string length bounds (section 4.4). -/
structure Schema where
  properties : List (String × FieldSpec)
  required : List String
deriving Repr

/-- Does a single value satisfy a field specification? -/
def fieldOk (v : JSValue) (spec : FieldSpec) : Bool :=
  match spec.ftype, v with
  | .stringType, .str s =>
      match spec.maxLength with
      | none => true
      | some m => s.length ≤ m
  | .numberType, .num _ => true
  | .booleanType, .bool _ => true
  | .objectType, .obj _ => true
  | _, _ => false

/-- Modelled from the spec: `validate(content, schemaRef) -> bool` is pure
and side-effect-free (section 4.4).  Content must be an object, carry every
required field, and every declared property that is present must satisfy
its field specification. -/
def validate (content : JSValue) (sch : Schema) : Bool :=
  match content with
  | .obj fields =>
      sch.required.all (fun r => (fields.lookup r).isSome) &&
      sch.properties.all (fun p =>
        match fields.lookup p.1 with
        | none => true
        | some v => fieldOk v p.2)
  | _ => false

/-- Modelled from the spec: a commit binds content and the signing identity
(section 3).  Sequence position in the document's history supplies the
timestamp/sequence component. -/
structure Commit where
  content : JSValue
  signer : Identity

/-- Modelled from the spec: a versioned document — owner identity fixed at
creation, optional schema reference fixed at creation, an immutable genesis
commit plus an append-only chain of signed update commits (section 3). -/
structure Document where
  owner : Identity
  schemaRef : Option Nat
  genesis : Commit
  updates : List Commit

/-- The full commit history of a document, genesis first. -/
def Document.commits (d : Document) : List Commit :=
  d.genesis :: d.updates

/-- The latest accepted content of a document: the last update commit if
any, the genesis commit otherwise. -/
def Document.latest (d : Document) : JSValue :=
  (d.updates.getLast?.getD d.genesis).content

/-- Modelled from the spec: the remote store's state — the documents it
holds (a stream identifier is an index into this append-only list) and the
published schemas (a schema commit identifier is an index into this
append-only list). -/
structure StoreState where
  docs : List Document
  schemas : List Schema

/-- The store before any document was created. -/
def emptyStore : StoreState := ⟨[], []⟩

/-- An identifier accepted by `loadDocument`: either a stream identifier
(resolving to the latest accepted commit) or a commit identifier (pinned to
one exact historical version). -/
inductive DocRef where
  | stream : Nat → DocRef
  | commit : Nat → Nat → DocRef
deriving DecidableEq, Repr

/-- Check `content` against the optional schema reference carried by a
creation or update request: no reference means no gate; a dangling
reference is NotFound; otherwise the referenced schema must validate. -/
def checkSchema (st : StoreState) (ref : Option Nat) (content : JSValue) :
    Except StoreError Unit :=
  match ref with
  | none => .ok ()
  | some r =>
      match st.schemas[r]? with
      | none => .error .notFound
      | some sch => if validate content sch then .ok () else .error .schemaViolation

/-- Modelled from the spec: the shared core of `TileDocument.create` —
requires a current identity (else Unauthenticated), validates against the
optional schema (else SchemaViolation), then appends a fresh document whose
owner is the current identity and whose genesis commit it signs.  Returns
the new stream identifier and the new store. -/
def tileCreate (st : StoreState) (cur : Option Identity) (content : JSValue)
    (schemaRef : Option Nat) : Except StoreError (Nat × StoreState) :=
  match cur with
  | none => .error .unauthenticated
  | some who =>
      match checkSchema st schemaRef content with
      | .error e => .error e
      | .ok _ =>
          .ok (st.docs.length,
            { st with docs := st.docs ++ [⟨who, schemaRef, ⟨content, who⟩, []⟩] })

/-- Embeds `createDocument` of the script (src/unnamed/part_000 lines
19-24): `TileDocument.create` with no schema option, returning the stream
identifier. -/
def createDocument (st : StoreState) (cur : Option Identity)
    (content : JSValue) : Except StoreError (Nat × StoreState) :=
  tileCreate st cur content none

/-- Embeds `createDocumentWithSchema` of the script (src/unnamed/part_000
lines 26-35): `TileDocument.create` with a schema commit identifier. -/
def createDocumentWithSchema (st : StoreState) (cur : Option Identity)
    (content : JSValue) (schemaID : Nat) : Except StoreError (Nat × StoreState) :=
  tileCreate st cur content (some schemaID)

/-- Modelled from the spec: `createSchema(definition) -> CommitIdentifier`
publishes an immutable schema document and returns the commit identifier of
the created version (section 4.4); requires a current identity like every
creation. -/
def createSchema (st : StoreState) (cur : Option Identity)
    (sch : Schema) : Except StoreError (Nat × StoreState) :=
  match cur with
  | none => .error .unauthenticated
  | some _ => .ok (st.schemas.length, { st with schemas := st.schemas ++ [sch] })

/-- The schema shape hard-coded in the script's `createSchemaDocument`
(src/unnamed/part_000 lines 41-52): an object with a required string
property "name" of maximum length 150. -/
def mySchema : Schema :=
  ⟨[("name", ⟨.stringType, some 150⟩)], ["name"]⟩

/-- Embeds `createSchemaDocument` of the script (src/unnamed/part_000 lines
39-55): publishes the fixed schema above and returns `doc.commitId`, an
immutable reference to the created version of the schema. -/
def createSchemaDocument (st : StoreState) (cur : Option Identity) :
    Except StoreError (Nat × StoreState) :=
  createSchema st cur mySchema

/-- Modelled from the spec: `loadDocument(id) -> Document | fails(NotFound)`;
the read path is unauthenticated — the result never depends on `cur`
(section 4.2).  A stream identifier resolves to the latest accepted
content; a commit identifier resolves to one fixed historical version.
Embeds `loadDocument` of the script (src/unnamed/part_000 lines 57-59). -/
def loadDocument (cur : Option Identity) (st : StoreState) (ref : DocRef) :
    Except StoreError JSValue :=
  match ref with
  | .stream sid =>
      match st.docs[sid]? with
      | none => .error .notFound
      | some d => .ok d.latest
  | .commit sid cid =>
      match st.docs[sid]? with
      | none => .error .notFound
      | some d =>
          match d.commits[cid]? with
          | none => .error .notFound
          | some c => .ok c.content

/-- Modelled from the spec: the update protocol of section 4.3 —
1. requires a current identity (else Unauthenticated); an unknown stream is
NotFound; 2./3. the store compares the signing identity against the
recorded owner: a mismatch fails with OwnershipViolation and no history
mutation occurs; 4. on a match, content carrying a schema reference must
validate (else SchemaViolation); an accepted commit is appended and the
stream identifier now resolves to it, prior commit identifiers unchanged.
Embeds `TileDocument.update` as called by the script. -/
def updateDocument (st : StoreState) (cur : Option Identity) (sid : Nat)
    (newContent : JSValue) : Except StoreError StoreState :=
  match cur with
  | none => .error .unauthenticated
  | some who =>
      match st.docs[sid]? with
      | none => .error .notFound
      | some d =>
          if who = d.owner then
            match checkSchema st d.schemaRef newContent with
            | .error e => .error e
            | .ok _ =>
                .ok { st with
                  docs := st.docs.set sid
                    { d with updates := d.updates ++ [⟨newContent, who⟩] } }
          else .error .ownershipViolation

/-- A syntactically valid identifier with respect to a store: it addresses
an existing document (and, for a commit identifier, an existing commit of
that document). -/
def validRef (st : StoreState) : DocRef → Bool
  | .stream sid => st.docs[sid]?.isSome
  | .commit sid cid =>
      match st.docs[sid]? with
      | none => false
      | some d => d.commits[cid]?.isSome

/-- A client session: the store it talks to and the zero-or-one current
identity it holds (spec section 4.2, settable and overwritable). -/
structure Session where
  store : StoreState
  cur : Option Identity

/-- One operation a client can issue during a session. -/
inductive ClientOp where
  | setIdentity : Option Identity → ClientOp
  | create : JSValue → ClientOp
  | createWithSchema : JSValue → Nat → ClientOp
  | publishSchema : Schema → ClientOp
  | load : DocRef → ClientOp
  | updateDoc : Nat → JSValue → ClientOp

/-- Effect of one client operation on the session.  A failed operation
raises to the caller and leaves the store untouched (spec section 7: no
partial application); a load never mutates. -/
def stepOp (s : Session) (op : ClientOp) : Session :=
  match op with
  | .setIdentity i => { s with cur := i }
  | .create c =>
      match createDocument s.store s.cur c with
      | .ok (_, st) => { s with store := st }
      | .error _ => s
  | .createWithSchema c r =>
      match createDocumentWithSchema s.store s.cur c r with
      | .ok (_, st) => { s with store := st }
      | .error _ => s
  | .publishSchema sch =>
      match createSchema s.store s.cur sch with
      | .ok (_, st) => { s with store := st }
      | .error _ => s
  | .load _ => s
  | .updateDoc sid c =>
      match updateDocument s.store s.cur sid c with
      | .ok st => { s with store := st }
      | .error _ => s

/-- Run a whole sequence of client operations. -/
def execOps (s : Session) (ops : List ClientOp) : Session :=
  ops.foldl stepOp s

/-! Concrete data of the script's `main`: the two seeds, the document
contents it uses, and the store states its first steps produce. -/

/-- The first seed of `main`: `new Uint8Array(32)`, thirty-two zero bytes. -/
def seedA : List Nat := List.replicate 32 0

/-- The second seed of `main`: the bytes 1 to 32. -/
def seedB : List Nat := (List.range 32).map (· + 1)

/-- The identity derived from the first seed. -/
def idA : Identity := ⟨didKeyOfSeed seedA⟩

/-- The identity derived from the second seed. -/
def idB : Identity := ⟨didKeyOfSeed seedB⟩

/-- The content `{test: "123"}` the script creates documents with. -/
def testContent : JSValue := .obj [("test", .str "123")]

/-- The content of the script's first, successful update:
`{...typeDocument(content), updated: true}`. -/
def updatedContent : JSValue :=
  .obj (spreadProps testContent ++ [("updated", .bool true)])

/-- The content `{name: "Alice"}` the script validates against the schema. -/
def aliceContent : JSValue := .obj [("name", .str "Alice")]

/-- The store after `main`'s first step: identity A created a document
with content `{test: "123"}`. -/
def storeAfterCreateA : StoreState :=
  ⟨[⟨idA, none, ⟨testContent, idA⟩, []⟩], []⟩

/-- The store after `main`'s successful update of that document by its
owner. -/
def storeAfterUpdateA : StoreState :=
  ⟨[⟨idA, none, ⟨testContent, idA⟩, [⟨updatedContent, idA⟩]⟩], []⟩

/-- Document `d2` is a later version of document `d1`: same owner, same
schema reference, same genesis commit, and the update chain of `d1`
extended by some (possibly empty) suffix of later commits. -/
def DocExtends (d2 d1 : Document) : Prop :=
  d2.owner = d1.owner ∧ d2.schemaRef = d1.schemaRef ∧ d2.genesis = d1.genesis ∧
    ∃ tail, d2.updates = d1.updates ++ tail

theorem DocExtends.refl (d : Document) : DocExtends d d :=
  ⟨rfl, rfl, rfl, [], by simp⟩

theorem DocExtends.trans {d3 d2 d1 : Document}
    (h32 : DocExtends d3 d2) (h21 : DocExtends d2 d1) : DocExtends d3 d1 := by
  obtain ⟨ho32, hs32, hg32, t32, ht32⟩ := h32
  obtain ⟨ho21, hs21, hg21, t21, ht21⟩ := h21
  exact ⟨ho32.trans ho21, hs32.trans hs21, hg32.trans hg21, t21 ++ t32, by
    rw [ht32, ht21, List.append_assoc]⟩

/-- Full characterization of a successful `tileCreate`: some identity was
current, the fresh stream identifier is the previous document count, and
the store gained exactly one document owned and genesis-signed by that
identity, schemas untouched. -/
theorem tileCreate_ok {st : StoreState} {cur : Option Identity}
    {content : JSValue} {r : Option Nat} {n : Nat} {st' : StoreState}
    (h : tileCreate st cur content r = .ok (n, st')) :
    ∃ who, cur = some who ∧ n = st.docs.length ∧
      st'.docs = st.docs ++ [⟨who, r, ⟨content, who⟩, []⟩] ∧
      st'.schemas = st.schemas := by
  unfold tileCreate at h
  cases cur with
  | none => simp at h
  | some who =>
      cases hs : checkSchema st r content with
      | error e => rw [hs] at h; simp at h
      | ok u =>
          rw [hs] at h
          simp only [Except.ok.injEq, Prod.mk.injEq] at h
          exact ⟨who, rfl, h.1.symm, by rw [← h.2], by rw [← h.2]⟩

/-- Full characterization of a successful `updateDocument`: some identity
was current, it matches the owner of the existing target document, and the
store replaces exactly that document by one with the new commit appended,
schemas untouched. -/
theorem updateDocument_ok {st : StoreState} {cur : Option Identity}
    {sid : Nat} {c : JSValue} {st' : StoreState}
    (h : updateDocument st cur sid c = .ok st') :
    ∃ who d, cur = some who ∧ st.docs[sid]? = some d ∧ who = d.owner ∧
      st'.docs = st.docs.set sid { d with updates := d.updates ++ [⟨c, who⟩] } ∧
      st'.schemas = st.schemas := by
  unfold updateDocument at h
  cases cur with
  | none => simp at h
  | some who =>
      cases hd : st.docs[sid]? with
      | none => rw [hd] at h; simp at h
      | some d =>
          rw [hd] at h
          dsimp only at h
          by_cases how : who = d.owner
          · rw [if_pos how] at h
            cases hs : checkSchema st d.schemaRef c with
            | error e => rw [hs] at h; simp at h
            | ok u =>
                rw [hs] at h
                simp only [Except.ok.injEq] at h
                exact ⟨who, d, rfl, rfl, how, by rw [← h], by rw [← h]⟩
          · rw [if_neg how] at h
            simp at h

/-- A mismatching current identity makes `updateDocument` fail with
OwnershipViolation, leaving the store untouched. -/
theorem updateDocument_wrong_owner {st : StoreState} {sid : Nat}
    {c : JSValue} {who : Identity} {d : Document}
    (hd : st.docs[sid]? = some d) (how : who ≠ d.owner) :
    updateDocument st (some who) sid c = .error .ownershipViolation := by
  unfold updateDocument
  rw [hd]
  simp [how]

/-- Publishing a schema never touches the documents: it appends the
definition to the schema list and returns its commit identifier. -/
theorem createSchema_ok {st : StoreState} {cur : Option Identity}
    {sch : Schema} {n : Nat} {st' : StoreState}
    (h : createSchema st cur sch = .ok (n, st')) :
    st'.docs = st.docs ∧ n = st.schemas.length ∧
      st'.schemas = st.schemas ++ [sch] := by
  unfold createSchema at h
  cases cur with
  | none => simp at h
  | some w =>
      simp only [Except.ok.injEq, Prod.mk.injEq] at h
      exact ⟨by rw [← h.2], h.1.symm, by rw [← h.2]⟩

/-- One client operation sends every existing document to a later version
of itself at the same stream identifier. -/
theorem stepOp_docExtends (s : Session) (op : ClientOp) (sid : Nat)
    (d : Document) (h : s.store.docs[sid]? = some d) :
    ∃ d2, (stepOp s op).store.docs[sid]? = some d2 ∧ DocExtends d2 d := by
  have hlt : sid < s.store.docs.length := (List.getElem?_eq_some.mp h).1
  cases op with
  | setIdentity i => exact ⟨d, h, DocExtends.refl d⟩
  | load ref => exact ⟨d, h, DocExtends.refl d⟩
  | publishSchema sch =>
      refine ⟨d, ?_, DocExtends.refl d⟩
      cases hc : createSchema s.store s.cur sch with
      | error e => simpa [stepOp, hc] using h
      | ok p =>
          obtain ⟨n, st'⟩ := p
          have hdocs := (createSchema_ok hc).1
          simpa [stepOp, hc, hdocs] using h
  | create c =>
      refine ⟨d, ?_, DocExtends.refl d⟩
      cases hc : createDocument s.store s.cur c with
      | error e => simpa [stepOp, hc] using h
      | ok p =>
          obtain ⟨n, st'⟩ := p
          obtain ⟨who, -, -, hdocs, -⟩ := tileCreate_ok hc
          simp only [stepOp, hc, hdocs]
          rw [List.getElem?_append_left hlt]
          exact h
  | createWithSchema c r =>
      refine ⟨d, ?_, DocExtends.refl d⟩
      cases hc : createDocumentWithSchema s.store s.cur c r with
      | error e => simpa [stepOp, hc] using h
      | ok p =>
          obtain ⟨n, st'⟩ := p
          obtain ⟨who, -, -, hdocs, -⟩ := tileCreate_ok hc
          simp only [stepOp, hc, hdocs]
          rw [List.getElem?_append_left hlt]
          exact h
  | updateDoc tid c =>
      cases hc : updateDocument s.store s.cur tid c with
      | error e => exact ⟨d, by simpa [stepOp, hc] using h, DocExtends.refl d⟩
      | ok st' =>
          obtain ⟨who, dt, -, hdt, -, hdocs, -⟩ := updateDocument_ok hc
          by_cases hsid : tid = sid
          · subst hsid
            have hdd : dt = d := by
              rw [hdt] at h
              exact (Option.some.injEq dt d).mp h
            subst hdd
            refine ⟨{ dt with updates := dt.updates ++ [⟨c, who⟩] }, ?_, ?_⟩
            · simp only [stepOp, hc, hdocs]
              simp [List.getElem?_set_self, hlt]
            · exact ⟨rfl, rfl, rfl, [⟨c, who⟩], rfl⟩
          · refine ⟨d, ?_, DocExtends.refl d⟩
            simp only [stepOp, hc, hdocs]
            rw [List.getElem?_set_ne hsid]
            exact h

/-- Any sequence of client operations sends every existing document to a
later version of itself at the same stream identifier. -/
theorem execOps_docExtends (ops : List ClientOp) (s : Session) (sid : Nat)
    (d : Document) (h : s.store.docs[sid]? = some d) :
    ∃ d2, (execOps s ops).store.docs[sid]? = some d2 ∧ DocExtends d2 d := by
  induction ops generalizing s d with
  | nil => exact ⟨d, h, DocExtends.refl d⟩
  | cons op rest ih =>
      obtain ⟨d1, h1, hext1⟩ := stepOp_docExtends s op sid d h
      obtain ⟨d2, h2, hext2⟩ := ih (stepOp s op) d1 h1
      exact ⟨d2, h2, hext2.trans hext1⟩

/-- A later version of a document keeps every commit of the earlier version
at its commit index, unchanged. -/
theorem DocExtends.commit_pinned {d2 d1 : Document} (hext : DocExtends d2 d1)
    {cid : Nat} {c : Commit} (hc : d1.commits[cid]? = some c) :
    d2.commits[cid]? = some c := by
  obtain ⟨-, -, hg, tail, ht⟩ := hext
  have hcomm : d2.commits = d1.commits ++ tail := by
    simp [Document.commits, hg, ht]
  rw [hcomm, List.getElem?_append_left (List.getElem?_eq_some.mp hc).1]
  exact hc

/-- C3: for all valid 32-byte seeds, authenticate is deterministic —
identical seed implies identical resulting identity handle across repeated
calls. -/
theorem claim_C3_authenticate_deterministic (s1 s2 : List Nat)
    (h32 : s1.length = 32) (heq : s1 = s2) :
    ∃ i1 i2, authenticateDID s1 = .ok i1 ∧ authenticateDID s2 = .ok i2 ∧
      i1.handle = i2.handle := by
  subst heq
  exact ⟨⟨didKeyOfSeed s1⟩, ⟨didKeyOfSeed s1⟩, by simp [authenticateDID, h32],
    by simp [authenticateDID, h32], rfl⟩

/-- Witness for C3 at the script's zero seed. -/
theorem claim_C3_authenticate_deterministic_witness :
    ∃ i1 i2, authenticateDID seedA = .ok i1 ∧ authenticateDID seedA = .ok i2 ∧
      i1.handle = i2.handle :=
  claim_C3_authenticate_deterministic seedA seedA (by decide) rfl

/-- C9: authenticate accepts exactly 32-byte seeds — a 32-byte seed yields
an identity, any other length fails with InvalidInput. -/
theorem claim_C9_seed_length (seed : List Nat) :
    (seed.length = 32 → ∃ i, authenticateDID seed = .ok i) ∧
    (seed.length ≠ 32 → authenticateDID seed = .error .invalidInput) := by
  constructor
  · intro h32
    exact ⟨⟨didKeyOfSeed seed⟩, by simp [authenticateDID, h32]⟩
  · intro hne
    simp [authenticateDID, hne]

/-- Witness for C9: the 32-byte zero seed authenticates; the script's
comment-mandated length is enforced against a 3-byte seed. -/
theorem claim_C9_seed_length_witness :
    (∃ i, authenticateDID seedA = .ok i) ∧
      authenticateDID [1, 2, 3] = .error .invalidInput :=
  ⟨(claim_C9_seed_length seedA).1 (by decide),
    (claim_C9_seed_length [1, 2, 3]).2 (by decide)⟩

/-- The handle an identity derives from any 32-byte seed is a well-formed
did:key identifier. -/
theorem wellFormedDid_didKeyOfSeed (seed : List Nat) :
    wellFormedDid (didKeyOfSeed seed) = true := by
  unfold wellFormedDid didKeyOfSeed
  apply Bool.and_eq_true_iff.mpr
  constructor
  · apply decide_eq_true
    have h9 : didPrefix.length = 9 := by decide
    rw [← h9, List.take_left]
  · apply decide_eq_true
    simp [didPrefix]

/-- C8: resolve is read-only and succeeds for every syntactically valid
identifier — including the handle of an identity freshly derived from a
seed that never authenticated a session — never consulting any
registration; only a malformed identifier fails, with InvalidInput. -/
theorem claim_C8_resolve_total (registered : List Identity) (idf : Identifier)
    (seed : List Nat) (i : Identity) (hauth : authenticateDID seed = .ok i) :
    (wellFormedDid idf = true → resolveDID registered idf = .ok ⟨idf, idf.drop 9⟩) ∧
    (wellFormedDid idf = false → resolveDID registered idf = .error .invalidInput) ∧
    resolveDID registered idf = resolveDID [] idf ∧
    (∃ p, resolveDID registered i.handle = .ok p) := by
  have hhandle : i.handle = didKeyOfSeed seed := by
    unfold authenticateDID at hauth
    by_cases h32 : seed.length = 32
    · rw [if_pos h32] at hauth
      simp only [Except.ok.injEq] at hauth
      rw [← hauth]
    · rw [if_neg h32] at hauth
      simp at hauth
  refine ⟨?_, ?_, rfl, ?_⟩
  · intro hwf
    simp [resolveDID, hwf]
  · intro hmal
    simp [resolveDID, hmal]
  · refine ⟨⟨i.handle, i.handle.drop 9⟩, ?_⟩
    simp [resolveDID, hhandle, wellFormedDid_didKeyOfSeed]

/-- Witness for C8 at the script's own identifiers: the second seed's
freshly derived handle resolves even though only other identities are
"registered", and the empty identifier is rejected as malformed. -/
theorem claim_C8_resolve_total_witness :
    ((wellFormedDid [] = true → resolveDID [idA] [] = .ok ⟨[], [].drop 9⟩) ∧
     (wellFormedDid [] = false → resolveDID [idA] [] = .error .invalidInput) ∧
     resolveDID [idA] [] = resolveDID [] [] ∧
     (∃ p, resolveDID [idA] idB.handle = .ok p)) ∧
    wellFormedDid [] = false :=
  ⟨claim_C8_resolve_total [idA] [] seedB idB (by rfl), by decide⟩

/-- C2: a document's owner identity is fixed at creation — it becomes the
client's current identity at the moment of `createDocument` — and never
changes over the document's lifetime, no matter what sequence of loads,
updates, or client identity switches follows. -/
theorem claim_C2_owner_fixed (st st1 : StoreState) (A : Identity)
    (content : JSValue) (sid : Nat) (cur0 : Option Identity)
    (ops : List ClientOp)
    (hcreate : createDocument st (some A) content = .ok (sid, st1)) :
    ∃ d, (execOps ⟨st1, cur0⟩ ops).store.docs[sid]? = some d ∧ d.owner = A := by
  obtain ⟨who, hwho, hn, hdocs, -⟩ := tileCreate_ok hcreate
  have hwA : A = who := by injection hwho
  have hd1 : st1.docs[sid]? = some ⟨who, none, ⟨content, who⟩, []⟩ := by
    rw [hdocs, hn]
    exact List.getElem?_concat_length _ _
  obtain ⟨d2, h2, hext⟩ := execOps_docExtends ops ⟨st1, cur0⟩ sid _ hd1
  have howner : d2.owner = who := hext.1
  exact ⟨d2, h2, by rw [howner, ← hwA]⟩

/-- Witness for C2: after the owner updates, the identity switches to B and
B creates its own document and attempts a takeover update, the first
document is still owned by A. -/
theorem claim_C2_owner_fixed_witness :
    ∃ d, (execOps ⟨storeAfterCreateA, some idA⟩
      [.updateDoc 0 updatedContent, .setIdentity (some idB),
       .create testContent,
       .updateDoc 0 (.obj [("pwned", .bool true)])]).store.docs[0]? = some d ∧
      d.owner = idA :=
  claim_C2_owner_fixed emptyStore storeAfterCreateA idA testContent 0
    (some idA)
    [.updateDoc 0 updatedContent, .setIdentity (some idB),
     .create testContent, .updateDoc 0 (.obj [("pwned", .bool true)])]
    (by rfl)

/-- C1: for every document created while the client held identity A, an
update attempted while the current identity is B ≠ A fails with
OwnershipViolation, the failed step leaves the session untouched, and
loading the document via its stream identifier afterwards returns exactly
what it returned before the attempt. -/
theorem claim_C1_foreign_update_rejected (st st1 : StoreState)
    (A B : Identity) (content newC : JSValue) (sid : Nat)
    (cur0 : Option Identity) (ops : List ClientOp)
    (hcreate : createDocument st (some A) content = .ok (sid, st1))
    (hB : B ≠ A)
    (hcur : (execOps ⟨st1, cur0⟩ ops).cur = some B) :
    updateDocument (execOps ⟨st1, cur0⟩ ops).store (some B) sid newC
        = .error .ownershipViolation ∧
    stepOp (execOps ⟨st1, cur0⟩ ops) (.updateDoc sid newC)
        = execOps ⟨st1, cur0⟩ ops ∧
    loadDocument none
        (stepOp (execOps ⟨st1, cur0⟩ ops) (.updateDoc sid newC)).store
        (.stream sid)
      = loadDocument none (execOps ⟨st1, cur0⟩ ops).store (.stream sid) := by
  obtain ⟨who, hwho, hn, hdocs, -⟩ := tileCreate_ok hcreate
  have hwA : A = who := by injection hwho
  have hd1 : st1.docs[sid]? = some ⟨who, none, ⟨content, who⟩, []⟩ := by
    rw [hdocs, hn]
    exact List.getElem?_concat_length _ _
  obtain ⟨d2, h2, hext⟩ := execOps_docExtends ops ⟨st1, cur0⟩ sid _ hd1
  have howner : d2.owner = who := hext.1
  have hBown : B ≠ d2.owner := by rw [howner, ← hwA]; exact hB
  have hupd := updateDocument_wrong_owner (c := newC) h2 hBown
  have hstep : stepOp (execOps ⟨st1, cur0⟩ ops) (.updateDoc sid newC)
      = execOps ⟨st1, cur0⟩ ops := by
    simp [stepOp, hcur, hupd]
  exact ⟨hupd, hstep, by rw [hstep]⟩

/-- Witness for C1: the script's scenario — A creates and updates the
document, the client switches to B, B creates its own document, then B's
takeover attempt on A's document fails with OwnershipViolation and changes
nothing. -/
theorem claim_C1_foreign_update_rejected_witness :
    updateDocument (execOps ⟨storeAfterCreateA, some idA⟩
        [.updateDoc 0 updatedContent, .setIdentity (some idB),
         .create testContent]).store (some idB) 0
        (.obj (spreadProps updatedContent ++ [("pwned", .bool true)]))
      = .error .ownershipViolation ∧
    stepOp (execOps ⟨storeAfterCreateA, some idA⟩
        [.updateDoc 0 updatedContent, .setIdentity (some idB),
         .create testContent])
        (.updateDoc 0 (.obj (spreadProps updatedContent ++ [("pwned", .bool true)])))
      = execOps ⟨storeAfterCreateA, some idA⟩
        [.updateDoc 0 updatedContent, .setIdentity (some idB),
         .create testContent] ∧
    loadDocument none
        (stepOp (execOps ⟨storeAfterCreateA, some idA⟩
          [.updateDoc 0 updatedContent, .setIdentity (some idB),
           .create testContent])
          (.updateDoc 0 (.obj (spreadProps updatedContent ++ [("pwned", .bool true)])))).store
        (.stream 0)
      = loadDocument none (execOps ⟨storeAfterCreateA, some idA⟩
          [.updateDoc 0 updatedContent, .setIdentity (some idB),
           .create testContent]).store (.stream 0) :=
  claim_C1_foreign_update_rejected emptyStore storeAfterCreateA idA idB
    testContent (.obj (spreadProps updatedContent ++ [("pwned", .bool true)]))
    0 (some idA)
    [.updateDoc 0 updatedContent, .setIdentity (some idB), .create testContent]
    (by rfl) (by decide) (by rfl)

/-- C4: round-trip — loading the stream identifier returned by
`createDocument(C)` immediately after creation, before any update, yields
content C, under any (or no) current identity. -/
theorem claim_C4_roundtrip (st st1 : StoreState) (A : Identity)
    (C : JSValue) (sid : Nat) (cur : Option Identity)
    (hcreate : createDocument st (some A) C = .ok (sid, st1)) :
    loadDocument cur st1 (.stream sid) = .ok C := by
  obtain ⟨who, hwho, hn, hdocs, -⟩ := tileCreate_ok hcreate
  have hd1 : st1.docs[sid]? = some ⟨who, none, ⟨C, who⟩, []⟩ := by
    rw [hdocs, hn]
    exact List.getElem?_concat_length _ _
  simp [loadDocument, hd1, Document.latest]

/-- Witness for C4 at the script's first creation. -/
theorem claim_C4_roundtrip_witness :
    loadDocument none storeAfterCreateA (.stream 0) = .ok testContent :=
  claim_C4_roundtrip emptyStore storeAfterCreateA idA testContent 0 none
    (by rfl)

/-- C5: commit pinning — after an update changes a stream's latest content
from C0 to C1, loading the stream identifier returns C1, loading the commit
identifier recorded at creation time (commit 0 of the stream) still returns
C0, and the pinned commit keeps returning C0 after any sequence of later
operations on the store. -/
theorem claim_C5_commit_pinning (st st1 st2 : StoreState) (A : Identity)
    (C0 C1 : JSValue) (sid : Nat) (cur cur0 : Option Identity)
    (ops : List ClientOp)
    (hcreate : createDocument st (some A) C0 = .ok (sid, st1))
    (hupd : updateDocument st1 (some A) sid C1 = .ok st2) :
    loadDocument cur st2 (.stream sid) = .ok C1 ∧
    loadDocument cur st2 (.commit sid 0) = .ok C0 ∧
    loadDocument cur (execOps ⟨st2, cur0⟩ ops).store (.commit sid 0)
      = .ok C0 := by
  obtain ⟨who, hwho, hn, hdocs, -⟩ := tileCreate_ok hcreate
  have hd1 : st1.docs[sid]? = some ⟨who, none, ⟨C0, who⟩, []⟩ := by
    rw [hdocs, hn]
    exact List.getElem?_concat_length _ _
  obtain ⟨who2, dt, hwho2, hdt, howner2, hdocs2, -⟩ := updateDocument_ok hupd
  have hdt' : dt = ⟨who, none, ⟨C0, who⟩, []⟩ := by
    rw [hd1] at hdt
    exact ((Option.some.injEq _ _).mp hdt).symm
  subst hdt'
  have hlt : sid < st1.docs.length := (List.getElem?_eq_some.mp hd1).1
  have hd2 : st2.docs[sid]? = some ⟨who, none, ⟨C0, who⟩, [⟨C1, who2⟩]⟩ := by
    rw [hdocs2]
    simp [List.getElem?_set_self, hlt]
  refine ⟨?_, ?_, ?_⟩
  · simp [loadDocument, hd2, Document.latest]
  · simp [loadDocument, hd2, Document.commits]
  · obtain ⟨d3, h3, hext⟩ := execOps_docExtends ops ⟨st2, cur0⟩ sid _ hd2
    have hpin : d3.commits[0]? = some ⟨C0, who⟩ :=
      hext.commit_pinned (by simp [Document.commits])
    simp [loadDocument, h3, hpin]

/-- Witness for C5: the script's document, updated once by its owner, then
updated once more; the stream shows the latest content while commit 0 still
shows the genesis content. -/
theorem claim_C5_commit_pinning_witness :
    loadDocument none storeAfterUpdateA (.stream 0) = .ok updatedContent ∧
    loadDocument none storeAfterUpdateA (.commit 0 0) = .ok testContent ∧
    loadDocument none (execOps ⟨storeAfterUpdateA, some idA⟩
        [.updateDoc 0 (.obj [("v", .num 3)])]).store (.commit 0 0)
      = .ok testContent :=
  claim_C5_commit_pinning emptyStore storeAfterCreateA storeAfterUpdateA idA
    testContent updatedContent 0 none (some idA)
    [.updateDoc 0 (.obj [("v", .num 3)])] (by rfl) (by rfl)

/-- C6: reads are unauthenticated and mutations are not — loadDocument
succeeds for any valid identifier on a client holding no current identity,
while an update on that identity-less client fails with Unauthenticated. -/
theorem claim_C6_reads_open_writes_closed (st : StoreState) (ref : DocRef)
    (sid : Nat) (newC : JSValue) (hvalid : validRef st ref = true) :
    (∃ v, loadDocument none st ref = .ok v) ∧
    updateDocument st none sid newC = .error .unauthenticated := by
  refine ⟨?_, rfl⟩
  cases ref with
  | stream s =>
      unfold validRef at hvalid
      dsimp only at hvalid
      cases hd : st.docs[s]? with
      | none => rw [hd] at hvalid; simp at hvalid
      | some d => exact ⟨d.latest, by simp [loadDocument, hd]⟩
  | commit s c =>
      unfold validRef at hvalid
      dsimp only at hvalid
      cases hd : st.docs[s]? with
      | none => rw [hd] at hvalid; simp at hvalid
      | some d =>
          rw [hd] at hvalid
          dsimp only at hvalid
          cases hc : d.commits[c]? with
          | none => rw [hc] at hvalid; simp at hvalid
          | some cm => exact ⟨cm.content, by simp [loadDocument, hd, hc]⟩

/-- Witness for C6: the script's `notAuthCeramic` client loads the first
document without an identity, and its update attempt is rejected. -/
theorem claim_C6_reads_open_writes_closed_witness :
    (∃ v, loadDocument none storeAfterUpdateA (.stream 0) = .ok v) ∧
    updateDocument storeAfterUpdateA none 0 testContent
      = .error .unauthenticated :=
  claim_C6_reads_open_writes_closed storeAfterUpdateA (.stream 0) 0
    testContent (by rfl)

/-- C7: schema gating at creation — under the script's published schema
(required string field "name" of maximal length 150), creating
`{name: "Alice"}` succeeds, while creating any content object lacking the
field "name" fails with SchemaViolation. -/
theorem claim_C7_schema_gating (st st1 : StoreState) (A : Identity)
    (r : Nat) (hschema : createSchemaDocument st (some A) = .ok (r, st1)) :
    (∃ sid st2,
      createDocumentWithSchema st1 (some A) aliceContent r = .ok (sid, st2)) ∧
    (∀ fields : List (String × JSValue), fields.lookup "name" = none →
      createDocumentWithSchema st1 (some A) (.obj fields) r
        = .error .schemaViolation) := by
  have hs2 : createSchema st (some A) mySchema = .ok (r, st1) := hschema
  obtain ⟨hdocs, hr, hschemas⟩ := createSchema_ok hs2
  have hsch : st1.schemas[r]? = some mySchema := by
    rw [hschemas, hr]
    exact List.getElem?_concat_length _ _
  constructor
  · refine ⟨st1.docs.length,
      { st1 with docs := st1.docs ++ [⟨A, some r, ⟨aliceContent, A⟩, []⟩] }, ?_⟩
    have hv : validate aliceContent mySchema = true := by decide
    have hcheck : checkSchema st1 (some r) aliceContent = .ok () := by
      unfold checkSchema
      dsimp only
      rw [hsch]
      simp [hv]
    simp [createDocumentWithSchema, tileCreate, hcheck]
  · intro fields hnone
    have hv : validate (.obj fields) mySchema = false := by
      simp [validate, mySchema, hnone]
    have hcheck : checkSchema st1 (some r) (.obj fields)
        = .error .schemaViolation := by
      unfold checkSchema
      dsimp only
      rw [hsch]
      simp [hv]
    simp [createDocumentWithSchema, tileCreate, hcheck]

/-- Witness for C7: publishing the schema into the empty store, creation
with `{name: "Alice"}` succeeds and creation with `{test: "123"}` (no
"name" field) fails with SchemaViolation. -/
theorem claim_C7_schema_gating_witness :
    (∃ sid st2, createDocumentWithSchema ⟨[], [mySchema]⟩ (some idA)
      aliceContent 0 = .ok (sid, st2)) ∧
    createDocumentWithSchema ⟨[], [mySchema]⟩ (some idA)
      (.obj [("test", .str "123")]) 0 = .error .schemaViolation :=
  ⟨(claim_C7_schema_gating emptyStore ⟨[], [mySchema]⟩ idA 0 (by rfl)).1,
   (claim_C7_schema_gating emptyStore ⟨[], [mySchema]⟩ idA 0 (by rfl)).2
     [("test", .str "123")] (by rfl)⟩

/-- C10: `typeDocument` is total — on every input it returns a plain
object; on inputs whose `typeof` is "object" it returns the shallow copy
`{...doc}` of the input's own properties (so exactly the input's property
list for objects, and the empty object for `null`, whose `typeof` is also
"object"); on every non-object input it returns the empty object. -/
theorem claim_C10_typeDocument_total (v : JSValue) :
    (∃ fields, typeDocument v = .obj fields) ∧
    (jsTypeof v = "object" → typeDocument v = .obj (spreadProps v)) ∧
    (∀ fields, v = .obj fields → typeDocument v = .obj fields) ∧
    typeDocument .null = .obj [] ∧
    (jsTypeof v ≠ "object" → typeDocument v = .obj []) := by
  refine ⟨?_, ?_, ?_, rfl, ?_⟩
  · unfold typeDocument
    by_cases h : jsTypeof v = "object"
    · rw [if_pos h]; exact ⟨spreadProps v, rfl⟩
    · rw [if_neg h]; exact ⟨[], rfl⟩
  · intro h
    unfold typeDocument
    rw [if_pos h]
  · intro fields hf
    subst hf
    rfl
  · intro h
    unfold typeDocument
    rw [if_neg h]

/-- Witness for C10 at the script's own update argument
`typeDocument(loadedDocument.content)` and at primitive inputs. -/
theorem claim_C10_typeDocument_total_witness :
    typeDocument testContent = .obj (spreadProps testContent) ∧
    typeDocument .null = .obj [] ∧
    typeDocument (.str "x") = .obj [] ∧
    typeDocument (.func "f") = .obj [] ∧
    typeDocument .undefined = .obj [] :=
  ⟨(claim_C10_typeDocument_total testContent).2.1 rfl,
   (claim_C10_typeDocument_total testContent).2.2.2.1,
   (claim_C10_typeDocument_total (.str "x")).2.2.2.2 (by decide),
   (claim_C10_typeDocument_total (.func "f")).2.2.2.2 (by decide),
   (claim_C10_typeDocument_total .undefined).2.2.2.2 (by decide)⟩

end Ceramic
